import Mathlib

/-!
# Verification of the nextcloud-exporter collection pipeline

Shallow embedding of `src/internal/client/client.go` (package `client`:
the `InfoClient` closure returned by `New`; package `metrics`: the
`nextcloudCollector` with its `Describe`/`Collect` methods and the
metric-mapping helpers `readMetrics`, `collectSimpleMetrics`,
`collectShares`, `collectFederatedShares`, `collectMap`,
`collectInfoMetric`).

Modelling conventions:
* Go `int` fields and `float64` sample values are modelled as `Int`
  (every sample value in the source is produced by converting an
  integer field with `float64(...)`; the conversion is value-preserving
  on the ranges of interest, so the embedding keeps exact integers).
* The prometheus channel `ch chan<- prometheus.Metric` is modelled as a
  `List Metric` accumulated in emission order.  Functions that both
  emit and may fail return `List Metric × Except ε Unit`: the list
  holds the samples already sent to the channel before the failure, as
  in the source, where a sample is sent as soon as it is built.
* The prometheus registry/exposition machinery is an external
  collaborator; its two calls used by the source,
  `upMetric.Collect`/`Describe` and
  `scrapeErrorsMetric.Collect`/`Describe`, are modelled at their
  interface boundary: one channel item carrying the gauge value,
  resp. one carrying the whole counter family.
-/

namespace NextcloudExporter

/-- Error outcomes of one scrape, mirroring the Go error values:
`ErrNotAuthorized`, `ErrRatelimit` (sentinel errors of package
`client`), the `fmt.Errorf("unexpected status code: %d", ...)` error,
a transport error from `client.Do`, the wrapped parse error, and a
metric-construction (mapping) error from `prometheus.NewConstMetric`. -/
inductive ScrapeError where
  | notAuthorized
  | ratelimit
  | unexpectedStatus (code : Nat)
  | transport (msg : String)
  | parse (msg : String)
  | mapping (msg : String)
  deriving DecidableEq, Repr

/-- Modelled from the spec: the `serverinfo.Shares` struct of the
`serverinfo` package (repository code not under `src/`); fields are the
share counters by type and federation direction, exactly those read by
`collectShares` and `collectFederatedShares` in `client.go`. -/
structure Shares where
  sharesUser : Int
  sharesGroups : Int
  sharesLink : Int
  sharesLinkNoPassword : Int
  fedSent : Int
  fedReceived : Int
  deriving DecidableEq, Repr

/-- Modelled from the spec: the app counters of the system group. -/
structure Apps where
  installed : Int
  availableUpdates : Int
  deriving DecidableEq, Repr

/-- Modelled from the spec: system info group of the status document. -/
structure SystemInfo where
  version : String
  apps : Apps
  freeSpace : Int
  deriving DecidableEq, Repr

/-- Modelled from the spec: storage counters of the status document. -/
structure Storage where
  users : Int
  files : Int
  deriving DecidableEq, Repr

/-- Modelled from the spec: the `nextcloud` group of the document. -/
structure NextcloudData where
  system : SystemInfo
  storage : Storage
  shares : Shares
  deriving DecidableEq, Repr

/-- Modelled from the spec: active-user count group. -/
structure ActiveUsers where
  last5Minutes : Int
  deriving DecidableEq, Repr

/-- Modelled from the spec: opcode-cache statistics. -/
structure OpCacheStats where
  hits : Int
  misses : Int
  cachedScripts : Int
  cachedKeys : Int
  deriving DecidableEq, Repr

/-- Modelled from the spec: user-cache (APCu) statistics. -/
structure APCuCache where
  hits : Int
  misses : Int
  inserts : Int
  entries : Int
  deriving DecidableEq, Repr

/-- Modelled from the spec: PHP runtime info group. -/
structure PHPInfo where
  version : String
  memoryLimit : Int
  uploadMaxFilesize : Int
  opCacheStats : OpCacheStats
  apcuCache : APCuCache
  deriving DecidableEq, Repr

/-- Modelled from the spec: database info group. -/
structure DatabaseInfo where
  type : String
  version : String
  size : Int
  deriving DecidableEq, Repr

/-- Modelled from the spec: the `server` group of the document. -/
structure ServerData where
  php : PHPInfo
  database : DatabaseInfo
  deriving DecidableEq, Repr

/-- Modelled from the spec: the `data` group of the status document. -/
structure ServerInfoData where
  nextcloud : NextcloudData
  server : ServerData
  activeUsers : ActiveUsers
  deriving DecidableEq, Repr

/-- Modelled from the spec: `serverinfo.ServerInfo`, the parsed status
document, with exactly the nested groups dereferenced by `client.go`. -/
structure ServerInfo where
  data : ServerInfoData
  deriving DecidableEq, Repr

/-! ## StatusFetcher: the `InfoClient` closure returned by `client.New` -/

/-- Configuration of the fetcher, the arguments of `client.New`. The
`timeout` and `tlsSkipVerify` fields configure the HTTP transport and
do not influence the request headers or the classification logic. -/
structure ClientConfig where
  infoURL : String
  username : String
  password : String
  authToken : String
  timeoutMillis : Nat
  userAgent : String
  tlsSkipVerify : Bool
  deriving DecidableEq, Repr

/-- The outgoing HTTP request as assembled by the closure in
`client.New`: method, URL, the `NC-Token` header (if set), basic-auth
credentials (if set), and the `User-Agent` header. -/
structure Request where
  method : String
  url : String
  ncToken : Option String
  basicAuth : Option (String × String)
  userAgent : Option String
  deriving DecidableEq, Repr

/-- Embeds lines 32–43 of `client.go`: build the GET request, attach
`NC-Token` when `authToken` is non-empty, basic auth otherwise, then
set the `User-Agent` header. -/
def buildRequest (cfg : ClientConfig) : Request :=
  let req : Request :=
    { method := "GET", url := cfg.infoURL
      ncToken := none, basicAuth := none, userAgent := none }
  let req :=
    if cfg.authToken = "" then
      { req with basicAuth := some (cfg.username, cfg.password) }
    else
      { req with ncToken := some cfg.authToken }
  { req with userAgent := some cfg.userAgent }

/-- An HTTP response as seen by the closure: its status code and the
outcome of running `serverinfo.ParseJSON` on its body.  `ParseJSON`
belongs to the `serverinfo` package (repository code not under
`src/`); modelled from the spec as the abstract parse outcome carried
by the response. -/
structure Response where
  statusCode : Nat
  bodyParse : Except String ServerInfo
  deriving Repr

/-- Embeds lines 45–67 of `client.go`: the part of the `InfoClient`
closure from `client.Do` onward.  The input is the transport outcome
(`client.Do` error, or a response); the status code is classified
(401, then 429, then any other non-200) and only a 200 response is
parsed, a parse failure being wrapped as in
`fmt.Errorf("can not parse server info: %w", err)`. -/
def fetchClassify (transport : Except String Response) :
    Except ScrapeError ServerInfo :=
  match transport with
  | .error msg => .error (.transport msg)
  | .ok res =>
    if res.statusCode = 401 then
      .error .notAuthorized
    else if res.statusCode = 429 then
      .error .ratelimit
    else if res.statusCode ≠ 200 then
      .error (.unexpectedStatus res.statusCode)
    else
      match res.bodyParse with
      | .error msg => .error (.parse ("can not parse server info: " ++ msg))
      | .ok status => .ok status

/-! ## MetricCollector: package `metrics` -/

def labelErrorCauseOther : String := "other"

def labelErrorCauseAuth : String := "auth"

/-- A metric descriptor as produced by `prometheus.NewDesc`: the fully
qualified name and the variable label names.  (Help text plays no role
in sample construction and is omitted.) -/
structure Desc where
  name : String
  labelNames : List String
  deriving DecidableEq, Repr

def systemInfoDesc : Desc := ⟨"nextcloud_system_info", ["version"]⟩

def appsInstalledDesc : Desc := ⟨"nextcloud_apps_installed_total", []⟩

def appsUpdatesDesc : Desc := ⟨"nextcloud_apps_updates_available_total", []⟩

def usersDesc : Desc := ⟨"nextcloud_users_total", []⟩

def filesDesc : Desc := ⟨"nextcloud_files_total", []⟩

def freeSpaceDesc : Desc := ⟨"nextcloud_free_space_bytes", []⟩

def sharesDesc : Desc := ⟨"nextcloud_shares_total", ["type"]⟩

def federationsDesc : Desc := ⟨"nextcloud_shares_federated_total", ["direction"]⟩

def activeUsersDesc : Desc := ⟨"nextcloud_active_users_total", []⟩

def phpInfoDesc : Desc := ⟨"nextcloud_php_info", ["version"]⟩

def phpMemoryLimitDesc : Desc := ⟨"nextcloud_php_memory_limit_bytes", []⟩

def phpMaxUploadSizeDesc : Desc := ⟨"nextcloud_php_upload_max_size_bytes", []⟩

def phpOpCacheHits : Desc := ⟨"nextcloud_php_opcache_hits_total", []⟩

def phpOpCacheMisses : Desc := ⟨"nextcloud_php_opcache_misses_total", []⟩

def phpOpCachedScripts : Desc := ⟨"nextcloud_php_opcache_scripts_total", []⟩

def phpOpCachedKeys : Desc := ⟨"nextcloud_php_opcache_keys_total", []⟩

def phpAPCuHits : Desc := ⟨"nextcloud_php_apcu_hits_total", []⟩

def phpAPCuMisses : Desc := ⟨"nextcloud_php_apcu_misses_total", []⟩

def phpAPCuInserts : Desc := ⟨"nextcloud_php_apcu_inserts_total", []⟩

def phpAPCuEntries : Desc := ⟨"nextcloud_php_apcu_keys_total", []⟩

def databaseSizeDesc : Desc := ⟨"nextcloud_database_size_bytes", ["version", "type"]⟩

/-- The descriptors of the two scrape-health metrics, created in
`RegisterCollector` (`prometheus.NewGauge` / `prometheus.NewCounterVec`). -/
def upDesc : Desc := ⟨"nextcloud_up", []⟩

def scrapeErrorsDesc : Desc := ⟨"nextcloud_scrape_errors_total", ["cause"]⟩

/-- One item sent on the `chan<- prometheus.Metric` channel: either a
constant sample built by `prometheus.NewConstMetric`, or the emission
of one of the collector's two persistent health metrics, modelled at
the prometheus interface boundary (`upGauge` carries the gauge value;
`errorsCounter` carries the whole counter family as an association
list from cause label to count, in creation order). -/
inductive Metric where
  | const (desc : Desc) (value : Int) (labelValues : List String)
  | upGauge (value : Int)
  | errorsCounter (counters : List (String × Nat))
  deriving DecidableEq, Repr

/-- Embeds `prometheus.NewConstMetric` at its interface boundary: it
fails exactly when the number of label values does not match the
descriptor's label names (label-cardinality mismatch), otherwise it
yields the sample. -/
def newConstMetric (desc : Desc) (value : Int) (labelValues : List String) :
    Except String Metric :=
  if labelValues.length = desc.labelNames.length then
    .ok (.const desc value labelValues)
  else
    .error ("inconsistent cardinality for " ++ desc.name)

/-- Emission loop of `collectSimpleMetrics` (lines 329–335): build each
sample in turn, sending it on the channel as soon as it is built; on a
construction error stop, keeping what was already sent. -/
def emitConstList (entries : List (Desc × Int)) :
    List Metric × Except ScrapeError Unit :=
  match entries with
  | [] => ([], .ok ())
  | (d, v) :: rest =>
    match newConstMetric d v [] with
    | .error msg => ([], .error (.mapping ("error creating metric for " ++ d.name ++ ": " ++ msg)))
    | .ok m =>
      let (l, r) := emitConstList rest
      (m :: l, r)

/-- Embeds `collectSimpleMetrics` (lines 283–338): the table of sixteen
scalar gauges, each the direct conversion of one document field. -/
def collectSimpleMetrics (status : ServerInfo) :
    List Metric × Except ScrapeError Unit :=
  emitConstList
    [ (appsInstalledDesc, status.data.nextcloud.system.apps.installed),
      (appsUpdatesDesc, status.data.nextcloud.system.apps.availableUpdates),
      (usersDesc, status.data.nextcloud.storage.users),
      (filesDesc, status.data.nextcloud.storage.files),
      (freeSpaceDesc, status.data.nextcloud.system.freeSpace),
      (activeUsersDesc, status.data.activeUsers.last5Minutes),
      (phpMemoryLimitDesc, status.data.server.php.memoryLimit),
      (phpMaxUploadSizeDesc, status.data.server.php.uploadMaxFilesize),
      (phpOpCacheHits, status.data.server.php.opCacheStats.hits),
      (phpOpCacheMisses, status.data.server.php.opCacheStats.misses),
      (phpOpCachedScripts, status.data.server.php.opCacheStats.cachedScripts),
      (phpOpCachedKeys, status.data.server.php.opCacheStats.cachedKeys),
      (phpAPCuHits, status.data.server.php.apcuCache.hits),
      (phpAPCuMisses, status.data.server.php.apcuCache.misses),
      (phpAPCuInserts, status.data.server.php.apcuCache.inserts),
      (phpAPCuEntries, status.data.server.php.apcuCache.entries) ]

/-- Embeds `collectMap` (lines 358–368): one single-label sample per
map entry, sent as soon as it is built; on a construction error stop.
Go map iteration order is unspecified; the embedding iterates in the
insertion order of the source, which no counted or per-label property
below depends on. -/
def collectMap (desc : Desc) (labelValueMap : List (String × Int)) :
    List Metric × Except ScrapeError Unit :=
  match labelValueMap with
  | [] => ([], .ok ())
  | (k, v) :: rest =>
    match newConstMetric desc v [k] with
    | .error msg => ([], .error (.mapping ("error creating shares metric for " ++ k ++ ": " ++ msg)))
    | .ok m =>
      let (l, r) := collectMap desc rest
      (m :: l, r)

/-- Embeds `collectShares` (lines 340–348), keys in source insertion
order; `authlink` is the unclamped difference
`SharesLink - SharesLinkNoPassword`. -/
def collectShares (shares : Shares) : List Metric × Except ScrapeError Unit :=
  collectMap sharesDesc
    [ ("user", shares.sharesUser),
      ("group", shares.sharesGroups),
      ("authlink", shares.sharesLink - shares.sharesLinkNoPassword),
      ("link", shares.sharesLink) ]

/-- Embeds `collectFederatedShares` (lines 350–356). -/
def collectFederatedShares (shares : Shares) :
    List Metric × Except ScrapeError Unit :=
  collectMap federationsDesc
    [ ("sent", shares.fedSent),
      ("received", shares.fedReceived) ]

/-- Embeds `collectInfoMetric` (lines 370–378): one sample with fixed
value 1 and the given label values. -/
def collectInfoMetric (desc : Desc) (labelValues : List String) :
    List Metric × Except ScrapeError Unit :=
  match newConstMetric desc 1 labelValues with
  | .error msg => ([], .error (.mapping msg))
  | .ok m => ([m], .ok ())

/-- Embeds `readMetrics` (lines 243–281): simple metrics, shares,
federated shares, the database-size sample, then the two info metrics;
each step's samples go to the channel as built, and the first error
aborts the remaining steps. -/
def readMetrics (status : ServerInfo) : List Metric × Except ScrapeError Unit :=
  let (l1, r1) := collectSimpleMetrics status
  match r1 with
  | .error e => (l1, .error e)
  | .ok _ =>
    let (l2, r2) := collectShares status.data.nextcloud.shares
    match r2 with
    | .error e => (l1 ++ l2, .error e)
    | .ok _ =>
      let (l3, r3) := collectFederatedShares status.data.nextcloud.shares
      match r3 with
      | .error e => (l1 ++ l2 ++ l3, .error e)
      | .ok _ =>
        match newConstMetric databaseSizeDesc status.data.server.database.size
            [status.data.server.database.version, status.data.server.database.type] with
        | .error msg => (l1 ++ l2 ++ l3, .error (.mapping msg))
        | .ok dbMetric =>
          let (l4, r4) := collectInfoMetric systemInfoDesc
            [status.data.nextcloud.system.version]
          match r4 with
          | .error e => (l1 ++ l2 ++ l3 ++ [dbMetric] ++ l4, .error e)
          | .ok _ =>
            let (l5, r5) := collectInfoMetric phpInfoDesc
              [status.data.server.php.version]
            match r5 with
            | .error e => (l1 ++ l2 ++ l3 ++ [dbMetric] ++ l4 ++ l5, .error e)
            | .ok _ => (l1 ++ l2 ++ l3 ++ [dbMetric] ++ l4 ++ l5, .ok ())

/-- The mutable scrape-health state of `nextcloudCollector`: the up
gauge's current value and the error `CounterVec`'s children as an
association list from cause label to count, in creation order. -/
structure CollectorState where
  upValue : Int
  scrapeErrors : List (String × Nat)
  deriving DecidableEq, Repr

/-- The state of a freshly registered collector: gauge at its zero
value, no counter children yet. -/
def initialState : CollectorState := ⟨0, []⟩

/-- Embeds `CounterVec.WithLabelValues(cause).Inc()`: increment the
child for `cause`, creating it at 1 if absent. -/
def incCounter (counters : List (String × Nat)) (cause : String) :
    List (String × Nat) :=
  match counters with
  | [] => [(cause, 1)]
  | (k, n) :: rest =>
    if k = cause then (k, n + 1) :: rest
    else (k, n) :: incCounter rest cause

/-- Embeds the cause selection in `Collect` (lines 220–223):
`labelErrorCauseAuth` exactly for the sentinel `client.ErrNotAuthorized`,
`labelErrorCauseOther` for every other error. -/
def errorCause (e : ScrapeError) : String :=
  if e = .notAuthorized then labelErrorCauseAuth else labelErrorCauseOther

/-- Embeds `collectNextcloud` (lines 234–241): one fetch, then the
metric mapping; a fetch error yields no channel traffic. The fetch
outcome (`c.infoClient()`) is the function's input. -/
def collectNextcloud (fetched : Except ScrapeError ServerInfo) :
    List Metric × Except ScrapeError Unit :=
  match fetched with
  | .error e => ([], .error e)
  | .ok status => readMetrics status

/-- Embeds `Collect` (lines 216–232): run the pipeline; on error count
it under its cause and set the gauge to 0, on success set the gauge
to 1; in both cases finish by collecting the two health metrics onto
the channel.  Returns the updated health state and the channel
contents in emission order; no error escapes. -/
def Collect (st : CollectorState) (fetched : Except ScrapeError ServerInfo) :
    CollectorState × List Metric :=
  let (domain, res) := collectNextcloud fetched
  match res with
  | .error e =>
    let st' : CollectorState :=
      ⟨0, incCounter st.scrapeErrors (errorCause e)⟩
    (st', domain ++ [.upGauge st'.upValue, .errorsCounter st'.scrapeErrors])
  | .ok _ =>
    let st' : CollectorState := ⟨1, st.scrapeErrors⟩
    (st', domain ++ [.upGauge st'.upValue, .errorsCounter st'.scrapeErrors])

/-- Embeds `Describe` (lines 205–214): the two health-metric
descriptors followed by the six domain descriptors that the source
sends; a pure function of nothing but the static descriptors. -/
def Describe (_st : CollectorState) : List Desc :=
  [ upDesc, scrapeErrorsDesc,
    usersDesc, filesDesc, freeSpaceDesc,
    sharesDesc, federationsDesc, activeUsersDesc ]


/-! ## Helper definitions for stating the properties -/

/-- The sample list `readMetrics` places on the channel for a status
document, written out: the sixteen scalar gauges in table order, the
four share samples, the two federation samples, the database-size
sample, and the two info metrics. -/
def mappedSamples (s : ServerInfo) : List Metric :=
  [ .const appsInstalledDesc s.data.nextcloud.system.apps.installed [],
    .const appsUpdatesDesc s.data.nextcloud.system.apps.availableUpdates [],
    .const usersDesc s.data.nextcloud.storage.users [],
    .const filesDesc s.data.nextcloud.storage.files [],
    .const freeSpaceDesc s.data.nextcloud.system.freeSpace [],
    .const activeUsersDesc s.data.activeUsers.last5Minutes [],
    .const phpMemoryLimitDesc s.data.server.php.memoryLimit [],
    .const phpMaxUploadSizeDesc s.data.server.php.uploadMaxFilesize [],
    .const phpOpCacheHits s.data.server.php.opCacheStats.hits [],
    .const phpOpCacheMisses s.data.server.php.opCacheStats.misses [],
    .const phpOpCachedScripts s.data.server.php.opCacheStats.cachedScripts [],
    .const phpOpCachedKeys s.data.server.php.opCacheStats.cachedKeys [],
    .const phpAPCuHits s.data.server.php.apcuCache.hits [],
    .const phpAPCuMisses s.data.server.php.apcuCache.misses [],
    .const phpAPCuInserts s.data.server.php.apcuCache.inserts [],
    .const phpAPCuEntries s.data.server.php.apcuCache.entries [],
    .const sharesDesc s.data.nextcloud.shares.sharesUser ["user"],
    .const sharesDesc s.data.nextcloud.shares.sharesGroups ["group"],
    .const sharesDesc
      (s.data.nextcloud.shares.sharesLink - s.data.nextcloud.shares.sharesLinkNoPassword)
      ["authlink"],
    .const sharesDesc s.data.nextcloud.shares.sharesLink ["link"],
    .const federationsDesc s.data.nextcloud.shares.fedSent ["sent"],
    .const federationsDesc s.data.nextcloud.shares.fedReceived ["received"],
    .const databaseSizeDesc s.data.server.database.size
      [s.data.server.database.version, s.data.server.database.type],
    .const systemInfoDesc 1 [s.data.nextcloud.system.version],
    .const phpInfoDesc 1 [s.data.server.php.version] ]

/-- Recognises a constant sample of the metric named `name`. -/
def scalarSample (name : String) : Metric → Bool :=
  fun m =>
    match m with
    | .const d _ _ => d.name == name
    | _ => false

/-- Recognises a constant sample of metric `name` with the single
label value `label`. -/
def labeledSample (name label : String) : Metric → Bool :=
  fun m =>
    match m with
    | .const d _ lv => d.name == name && lv == [label]
    | _ => false

/-- Recognises the up-gauge channel item. -/
def isUpSample : Metric → Bool :=
  fun m =>
    match m with
    | .upGauge _ => true
    | _ => false

/-- Recognises the scrape-error counter-family channel item. -/
def isErrorsSample : Metric → Bool :=
  fun m =>
    match m with
    | .errorsCounter _ => true
    | _ => false

/-- Value of the counter child for `cause` (0 when not yet created). -/
def counterValue (counters : List (String × Nat)) (cause : String) : Nat :=
  match counters with
  | [] => 0
  | (k, n) :: rest => if k = cause then n else counterValue rest cause

/-- A concrete status document, with the numeric values of the worked
example in the spec and arbitrary concrete values elsewhere. -/
def exampleStatus : ServerInfo :=
  { data :=
    { nextcloud :=
      { system :=
        { version := "20.0.4.1"
          apps := { installed := 42, availableUpdates := 3 }
          freeSpace := 10000000000 }
        storage := { users := 120, files := 58930 }
        shares :=
        { sharesUser := 5, sharesGroups := 2
          sharesLink := 10, sharesLinkNoPassword := 3
          fedSent := 1, fedReceived := 0 } }
      server :=
      { php :=
        { version := "7.4.11"
          memoryLimit := 536870912
          uploadMaxFilesize := 104857600
          opCacheStats :=
          { hits := 1000, misses := 10, cachedScripts := 50, cachedKeys := 60 }
          apcuCache :=
          { hits := 200, misses := 20, inserts := 30, entries := 40 } }
        database := { type := "mysql", version := "10.5.8", size := 9000000 } }
      activeUsers := { last5Minutes := 4 } } }

/-- Replace the share counters of a status document. -/
def withShares (s : ServerInfo) (sh : Shares) : ServerInfo :=
  { s with data := { s.data with nextcloud := { s.data.nextcloud with shares := sh } } }

/-- A fetcher configuration using the token header. -/
def exampleTokenConfig : ClientConfig :=
  ⟨"http://example.test/info", "alice", "pw", "tok", 5000, "nextcloud-exporter", false⟩

/-- A fetcher configuration using basic auth. -/
def exampleBasicConfig : ClientConfig :=
  ⟨"http://example.test/info", "alice", "pw", "", 5000, "nextcloud-exporter", false⟩

/-- A fetcher configuration with all credentials empty. -/
def exampleAnonConfig : ClientConfig :=
  ⟨"http://example.test/info", "", "", "", 5000, "nextcloud-exporter", false⟩

/-! ## General lemmas about the embedding -/

theorem readMetrics_fst (s : ServerInfo) : (readMetrics s).1 = mappedSamples s := rfl

/-- `readMetrics` never fails: every `prometheus.NewConstMetric` call
in the mapping passes label values matching its descriptor's label
names, so the label-cardinality check always succeeds. -/
theorem readMetrics_snd (s : ServerInfo) : (readMetrics s).2 = Except.ok () := rfl

theorem counterValue_incCounter_self (counters : List (String × Nat)) (cause : String) :
    counterValue (incCounter counters cause) cause = counterValue counters cause + 1 := by
  induction counters with
  | nil => simp [incCounter, counterValue]
  | cons hd tl ih =>
    obtain ⟨k, n⟩ := hd
    by_cases hk : k = cause
    · simp [incCounter, counterValue, hk]
    · simp [incCounter, counterValue, hk, ih]

theorem counterValue_incCounter_ne (counters : List (String × Nat))
    (cause other : String) (h : other ≠ cause) :
    counterValue (incCounter counters cause) other = counterValue counters other := by
  induction counters with
  | nil => simp [incCounter, counterValue, Ne.symm h]
  | cons hd tl ih =>
    obtain ⟨k, n⟩ := hd
    by_cases hk : k = cause
    · subst hk
      simp [incCounter, counterValue, Ne.symm h]
    · simp [incCounter, counterValue, hk, ih]

/-! ## The claims -/

/-- Claim C1: every `Collect` call, whatever the fetch outcome
(success or any error kind), places exactly one up-gauge item and
exactly one scrape-error-counter item on the channel; `Collect` is a
total function into state and channel contents, so no error reaches
the caller. -/
theorem claim1_health_metrics_emitted_once (st : CollectorState)
    (fetched : Except ScrapeError ServerInfo) :
    (Collect st fetched).2.countP isUpSample = 1 ∧
    (Collect st fetched).2.countP isErrorsSample = 1 := by
  cases fetched with
  | error e => exact ⟨rfl, rfl⟩
  | ok s => exact ⟨rfl, rfl⟩

/-- Claim C2: on a pipeline error `e` the scrape-error counter child
for `errorCause e` grows by exactly one while every other child is
unchanged, the cause is `"auth"` exactly for the authorization
sentinel and `"other"` for everything else, and the up gauge is set
to 0; on a successful pipeline the up gauge is set to 1 and the
counters do not change. -/
theorem claim2_error_cause_classification (st : CollectorState)
    (e : ScrapeError) (s : ServerInfo) :
    counterValue (Collect st (.error e)).1.scrapeErrors (errorCause e)
      = counterValue st.scrapeErrors (errorCause e) + 1 ∧
    (∀ c, c ≠ errorCause e →
      counterValue (Collect st (.error e)).1.scrapeErrors c
        = counterValue st.scrapeErrors c) ∧
    (errorCause e = labelErrorCauseAuth ↔ e = .notAuthorized) ∧
    (e ≠ .notAuthorized → errorCause e = labelErrorCauseOther) ∧
    (Collect st (.error e)).1.upValue = 0 ∧
    (Collect st (.ok s)).1.upValue = 1 ∧
    (Collect st (.ok s)).1.scrapeErrors = st.scrapeErrors := by
  refine ⟨?_, ?_, ?_, ?_, rfl, rfl, rfl⟩
  · exact counterValue_incCounter_self st.scrapeErrors (errorCause e)
  · exact fun c hc => counterValue_incCounter_ne st.scrapeErrors (errorCause e) c hc
  · by_cases he : e = .notAuthorized <;>
      simp [errorCause, he, labelErrorCauseAuth, labelErrorCauseOther]
  · intro he
    simp [errorCause, he, labelErrorCauseOther]

theorem claim2_witness :
    counterValue (Collect initialState (.error ScrapeError.ratelimit)).1.scrapeErrors
        (errorCause ScrapeError.ratelimit)
      = counterValue initialState.scrapeErrors (errorCause ScrapeError.ratelimit) + 1 ∧
    counterValue (Collect initialState (.error ScrapeError.ratelimit)).1.scrapeErrors
        labelErrorCauseAuth
      = counterValue initialState.scrapeErrors labelErrorCauseAuth ∧
    errorCause ScrapeError.ratelimit = labelErrorCauseOther ∧
    (Collect initialState (.ok exampleStatus)).1.upValue = 1 :=
  ⟨(claim2_error_cause_classification initialState ScrapeError.ratelimit exampleStatus).1,
   (claim2_error_cause_classification initialState ScrapeError.ratelimit exampleStatus).2.1
     labelErrorCauseAuth (by decide),
   (claim2_error_cause_classification initialState ScrapeError.ratelimit exampleStatus).2.2.2.1
     (by decide),
   (claim2_error_cause_classification initialState ScrapeError.ratelimit exampleStatus).2.2.2.2.2.1⟩

/-- Claim C3: classification of every received response: 401 gives
the authorization sentinel, 429 the rate-limit sentinel, any other
non-200 the status-code error carrying the code, and only a 200
response is parsed, a parse failure surfacing as the wrapped parse
error. -/
theorem claim3_status_code_classification (res : Response) :
    (res.statusCode = 401 → fetchClassify (.ok res) = .error .notAuthorized) ∧
    (res.statusCode = 429 → fetchClassify (.ok res) = .error .ratelimit) ∧
    (res.statusCode ≠ 401 → res.statusCode ≠ 429 → res.statusCode ≠ 200 →
      fetchClassify (.ok res) = .error (.unexpectedStatus res.statusCode)) ∧
    (∀ msg, res.statusCode = 200 → res.bodyParse = .error msg →
      fetchClassify (.ok res) = .error (.parse ("can not parse server info: " ++ msg))) ∧
    (∀ s, res.statusCode = 200 → res.bodyParse = .ok s →
      fetchClassify (.ok res) = .ok s) := by
  refine ⟨?_, ?_, ?_, ?_, ?_⟩ <;> intros <;> simp_all [fetchClassify]

theorem claim3_witness :
    fetchClassify (.ok ⟨401, .error "garbage"⟩) = .error .notAuthorized ∧
    fetchClassify (.ok ⟨429, .error "garbage"⟩) = .error .ratelimit ∧
    fetchClassify (.ok ⟨503, .error "garbage"⟩) = .error (.unexpectedStatus 503) ∧
    fetchClassify (.ok ⟨200, .error "bad json"⟩)
      = .error (.parse ("can not parse server info: " ++ "bad json")) ∧
    fetchClassify (.ok ⟨200, .ok exampleStatus⟩) = .ok exampleStatus :=
  ⟨(claim3_status_code_classification ⟨401, .error "garbage"⟩).1 rfl,
   (claim3_status_code_classification ⟨429, .error "garbage"⟩).2.1 rfl,
   (claim3_status_code_classification ⟨503, .error "garbage"⟩).2.2.1
     (by decide) (by decide) (by decide),
   (claim3_status_code_classification ⟨200, .error "bad json"⟩).2.2.2.1 "bad json" rfl rfl,
   (claim3_status_code_classification ⟨200, .ok exampleStatus⟩).2.2.2.2 exampleStatus rfl rfl⟩

/-- Claim C4: every request carries exactly one auth mechanism — the
`NC-Token` header exactly when the token is non-empty (taking
precedence over username and password), basic auth otherwise — plus
the configured user agent; never both mechanisms together. -/
theorem claim4_single_auth_mechanism (cfg : ClientConfig) :
    (cfg.authToken ≠ "" →
      (buildRequest cfg).ncToken = some cfg.authToken ∧
      (buildRequest cfg).basicAuth = none) ∧
    (cfg.authToken = "" →
      (buildRequest cfg).basicAuth = some (cfg.username, cfg.password) ∧
      (buildRequest cfg).ncToken = none) ∧
    (buildRequest cfg).userAgent = some cfg.userAgent ∧
    ¬((buildRequest cfg).ncToken.isSome ∧ (buildRequest cfg).basicAuth.isSome) := by
  by_cases h : cfg.authToken = "" <;> simp [buildRequest, h]

theorem claim4_witness :
    ((buildRequest exampleTokenConfig).ncToken = some "tok" ∧
      (buildRequest exampleTokenConfig).basicAuth = none) ∧
    ((buildRequest exampleBasicConfig).basicAuth = some ("alice", "pw") ∧
      (buildRequest exampleBasicConfig).ncToken = none) :=
  ⟨(claim4_single_auth_mechanism exampleTokenConfig).1 (by decide),
   (claim4_single_auth_mechanism exampleBasicConfig).2.1 rfl⟩

/-- Claim C5 fails on the code: `Describe` omits descriptors of
metrics that `Collect` produces, here the installed-apps metric, so
it does not emit the full descriptor set. -/
theorem claim5_counterexample :
    appsInstalledDesc ∉ Describe initialState ∧
    Metric.const appsInstalledDesc 42 []
      ∈ (Collect initialState (.ok exampleStatus)).2 := by
  constructor
  · decide
  · decide

/-- Claim C5 (amended): `Describe` emits a fixed set of eight
descriptors — the two health metrics plus users, files, free space,
shares, federated shares and active users — identical on every call,
unaffected by prior `Collect` outcomes and involving no network
input; the remaining domain descriptors are not described. -/
theorem claim5_describe_fixed_subset (st : CollectorState)
    (fetched : Except ScrapeError ServerInfo) :
    Describe st =
      [ upDesc, scrapeErrorsDesc, usersDesc, filesDesc, freeSpaceDesc,
        sharesDesc, federationsDesc, activeUsersDesc ] ∧
    Describe (Collect st fetched).1 = Describe st :=
  ⟨rfl, rfl⟩

/-- Claim C6: the `authlink` share sample is the unclamped difference
of link shares and passwordless link shares: zero when the two are
equal, negative and passed through as-is when the passwordless count
exceeds the link count. -/
theorem claim6_authlink_passthrough (s : ServerInfo) :
    (readMetrics s).1.filter (labeledSample "nextcloud_shares_total" "authlink") =
      [ .const sharesDesc
          (s.data.nextcloud.shares.sharesLink - s.data.nextcloud.shares.sharesLinkNoPassword)
          ["authlink"] ] ∧
    (s.data.nextcloud.shares.sharesLinkNoPassword = s.data.nextcloud.shares.sharesLink →
      (readMetrics s).1.filter (labeledSample "nextcloud_shares_total" "authlink") =
        [ .const sharesDesc 0 ["authlink"] ]) ∧
    (s.data.nextcloud.shares.sharesLink < s.data.nextcloud.shares.sharesLinkNoPassword →
      s.data.nextcloud.shares.sharesLink - s.data.nextcloud.shares.sharesLinkNoPassword < 0 ∧
      (readMetrics s).1.filter (labeledSample "nextcloud_shares_total" "authlink") =
        [ .const sharesDesc
            (s.data.nextcloud.shares.sharesLink - s.data.nextcloud.shares.sharesLinkNoPassword)
            ["authlink"] ]) := by
  refine ⟨rfl, ?_, ?_⟩
  · intro h
    have h1 : (readMetrics s).1.filter (labeledSample "nextcloud_shares_total" "authlink") =
        [ .const sharesDesc
            (s.data.nextcloud.shares.sharesLink - s.data.nextcloud.shares.sharesLinkNoPassword)
            ["authlink"] ] := rfl
    rw [h1, h, sub_self]
  · intro h
    exact ⟨sub_neg.mpr h, rfl⟩

theorem claim6_witness :
    ((readMetrics (withShares exampleStatus ⟨5, 2, 10, 10, 1, 0⟩)).1.filter
        (labeledSample "nextcloud_shares_total" "authlink") =
      [ .const sharesDesc 0 ["authlink"] ]) ∧
    ((3 : Int) - 5 < 0 ∧
      (readMetrics (withShares exampleStatus ⟨5, 2, 3, 5, 1, 0⟩)).1.filter
          (labeledSample "nextcloud_shares_total" "authlink") =
        [ .const sharesDesc ((3 : Int) - 5) ["authlink"] ]) :=
  ⟨(claim6_authlink_passthrough (withShares exampleStatus ⟨5, 2, 10, 10, 1, 0⟩)).2.1 rfl,
   (claim6_authlink_passthrough (withShares exampleStatus ⟨5, 2, 3, 5, 1, 0⟩)).2.2 (by decide)⟩

/-- Claim C7: for every status document the mapping yields exactly
one sample per scalar metric with value equal to the corresponding
document field, exactly four share samples labelled `user`, `group`,
`link`, `authlink`, and exactly two federation samples labelled
`sent`, `received`, whatever the field values. -/
theorem claim7_mapping_sample_counts (s : ServerInfo) :
    (readMetrics s).1.filter (scalarSample "nextcloud_apps_installed_total") =
      [ .const appsInstalledDesc s.data.nextcloud.system.apps.installed [] ] ∧
    (readMetrics s).1.filter (scalarSample "nextcloud_apps_updates_available_total") =
      [ .const appsUpdatesDesc s.data.nextcloud.system.apps.availableUpdates [] ] ∧
    (readMetrics s).1.filter (scalarSample "nextcloud_users_total") =
      [ .const usersDesc s.data.nextcloud.storage.users [] ] ∧
    (readMetrics s).1.filter (scalarSample "nextcloud_files_total") =
      [ .const filesDesc s.data.nextcloud.storage.files [] ] ∧
    (readMetrics s).1.filter (scalarSample "nextcloud_free_space_bytes") =
      [ .const freeSpaceDesc s.data.nextcloud.system.freeSpace [] ] ∧
    (readMetrics s).1.filter (scalarSample "nextcloud_active_users_total") =
      [ .const activeUsersDesc s.data.activeUsers.last5Minutes [] ] ∧
    (readMetrics s).1.filter (scalarSample "nextcloud_php_memory_limit_bytes") =
      [ .const phpMemoryLimitDesc s.data.server.php.memoryLimit [] ] ∧
    (readMetrics s).1.filter (scalarSample "nextcloud_php_upload_max_size_bytes") =
      [ .const phpMaxUploadSizeDesc s.data.server.php.uploadMaxFilesize [] ] ∧
    (readMetrics s).1.filter (scalarSample "nextcloud_php_opcache_hits_total") =
      [ .const phpOpCacheHits s.data.server.php.opCacheStats.hits [] ] ∧
    (readMetrics s).1.filter (scalarSample "nextcloud_php_opcache_misses_total") =
      [ .const phpOpCacheMisses s.data.server.php.opCacheStats.misses [] ] ∧
    (readMetrics s).1.filter (scalarSample "nextcloud_php_opcache_scripts_total") =
      [ .const phpOpCachedScripts s.data.server.php.opCacheStats.cachedScripts [] ] ∧
    (readMetrics s).1.filter (scalarSample "nextcloud_php_opcache_keys_total") =
      [ .const phpOpCachedKeys s.data.server.php.opCacheStats.cachedKeys [] ] ∧
    (readMetrics s).1.filter (scalarSample "nextcloud_php_apcu_hits_total") =
      [ .const phpAPCuHits s.data.server.php.apcuCache.hits [] ] ∧
    (readMetrics s).1.filter (scalarSample "nextcloud_php_apcu_misses_total") =
      [ .const phpAPCuMisses s.data.server.php.apcuCache.misses [] ] ∧
    (readMetrics s).1.filter (scalarSample "nextcloud_php_apcu_inserts_total") =
      [ .const phpAPCuInserts s.data.server.php.apcuCache.inserts [] ] ∧
    (readMetrics s).1.filter (scalarSample "nextcloud_php_apcu_keys_total") =
      [ .const phpAPCuEntries s.data.server.php.apcuCache.entries [] ] ∧
    (readMetrics s).1.countP (scalarSample "nextcloud_shares_total") = 4 ∧
    (readMetrics s).1.filter (labeledSample "nextcloud_shares_total" "user") =
      [ .const sharesDesc s.data.nextcloud.shares.sharesUser ["user"] ] ∧
    (readMetrics s).1.filter (labeledSample "nextcloud_shares_total" "group") =
      [ .const sharesDesc s.data.nextcloud.shares.sharesGroups ["group"] ] ∧
    (readMetrics s).1.filter (labeledSample "nextcloud_shares_total" "link") =
      [ .const sharesDesc s.data.nextcloud.shares.sharesLink ["link"] ] ∧
    (readMetrics s).1.filter (labeledSample "nextcloud_shares_total" "authlink") =
      [ .const sharesDesc
          (s.data.nextcloud.shares.sharesLink - s.data.nextcloud.shares.sharesLinkNoPassword)
          ["authlink"] ] ∧
    (readMetrics s).1.countP (scalarSample "nextcloud_shares_federated_total") = 2 ∧
    (readMetrics s).1.filter (labeledSample "nextcloud_shares_federated_total" "sent") =
      [ .const federationsDesc s.data.nextcloud.shares.fedSent ["sent"] ] ∧
    (readMetrics s).1.filter (labeledSample "nextcloud_shares_federated_total" "received") =
      [ .const federationsDesc s.data.nextcloud.shares.fedReceived ["received"] ] :=
  ⟨rfl, rfl, rfl, rfl, rfl, rfl, rfl, rfl, rfl, rfl, rfl, rfl,
   rfl, rfl, rfl, rfl, rfl, rfl, rfl, rfl, rfl, rfl, rfl, rfl⟩

/-- Claim C8: a failed pipeline — a fetch error or a mapping error —
leaves only the two health items on the channel for that scrape,
never a partial domain sample set. -/
theorem claim8_error_no_domain_samples (st : CollectorState)
    (fetched : Except ScrapeError ServerInfo) (e : ScrapeError)
    (h : (collectNextcloud fetched).2 = .error e) :
    (Collect st fetched).2 =
      [ .upGauge 0, .errorsCounter (incCounter st.scrapeErrors (errorCause e)) ] := by
  cases fetched with
  | error e' =>
    have he : e' = e := by simpa [collectNextcloud] using h
    subst he
    rfl
  | ok s =>
    rw [show (collectNextcloud (.ok s)).2 = (readMetrics s).2 from rfl,
      readMetrics_snd] at h
    exact absurd h (by simp)

theorem claim8_witness :
    (collectNextcloud (.error ScrapeError.ratelimit)).2
      = .error ScrapeError.ratelimit ∧
    (Collect initialState (.error ScrapeError.ratelimit)).2 =
      [ .upGauge 0,
        .errorsCounter (incCounter initialState.scrapeErrors
          (errorCause ScrapeError.ratelimit)) ] :=
  ⟨rfl, claim8_error_no_domain_samples initialState
    (.error ScrapeError.ratelimit) ScrapeError.ratelimit rfl⟩

/-- Claim C9: for a non-200 response the outcome does not depend on
the body: two responses with the same non-200 status code classify
identically whatever their bodies, and the outcome is never a parse
error. -/
theorem claim9_non200_never_parses (r r' : Response)
    (hcode : r.statusCode = r'.statusCode) (h200 : r.statusCode ≠ 200) :
    fetchClassify (.ok r) = fetchClassify (.ok r') ∧
    ∀ msg, fetchClassify (.ok r) ≠ .error (.parse msg) := by
  obtain ⟨c, body⟩ := r
  obtain ⟨c', body'⟩ := r'
  dsimp at hcode h200
  subst hcode
  by_cases h1 : c = 401
  · simp [fetchClassify, h1]
  · by_cases h2 : c = 429
    · simp [fetchClassify, h1, h2]
    · simp [fetchClassify, h1, h2, h200]

theorem claim9_witness :
    fetchClassify (.ok ⟨500, .error "malformed"⟩)
      = fetchClassify (.ok ⟨500, .ok exampleStatus⟩) ∧
    fetchClassify (.ok ⟨500, .error "malformed"⟩) ≠ .error (.parse "malformed") :=
  ⟨(claim9_non200_never_parses ⟨500, .error "malformed"⟩ ⟨500, .ok exampleStatus⟩
      rfl (by decide)).1,
   (claim9_non200_never_parses ⟨500, .error "malformed"⟩ ⟨500, .ok exampleStatus⟩
      rfl (by decide)).2 "malformed"⟩

/-- Claim C10: an empty token always yields a basic-auth header, even
with empty username and password; no configuration sends a request
with no authentication attached. -/
theorem claim10_no_unauthenticated_request (cfg : ClientConfig) :
    (cfg.authToken = "" →
      (buildRequest cfg).basicAuth = some (cfg.username, cfg.password)) ∧
    ((buildRequest cfg).ncToken.isSome ∨ (buildRequest cfg).basicAuth.isSome) := by
  by_cases h : cfg.authToken = "" <;> simp [buildRequest, h]

theorem claim10_witness :
    (buildRequest exampleAnonConfig).basicAuth = some ("", "") ∧
    ((buildRequest exampleAnonConfig).ncToken.isSome ∨
      (buildRequest exampleAnonConfig).basicAuth.isSome) :=
  ⟨(claim10_no_unauthenticated_request exampleAnonConfig).1 rfl,
   (claim10_no_unauthenticated_request exampleAnonConfig).2⟩

end NextcloudExporter
